import Mathlib

/-!
# Request lifecycle of `app.js`

A shallow embedding of the Express application in `src/app.js`: the session
middleware `mysqlConnection`, the bearer-token gate, and the route handlers,
in mount order.

Every call that leaves the file (the connection pool, the database, the
token library, the password-hashing library, the body parser and the route
matcher) is a field of `World`, so each theorem holds for every behaviour of
those libraries. A computation is a function from the request state to an
outcome (normal return or thrown value) and a new state; the state carries the
mutable request fields (`req.db`, `req.body`, `req.user`) and the ordered log of
the external calls made so far. A thrown value leaves the state as it was at
the throw, as an exception does in JavaScript.

`await next()` is embedded as running the computation `next` to its outcome: a
throw of `next` is a throw at the `await`.
-/

namespace AppJs

/-! ## Values and errors -/

/-- JavaScript values as far as the application handles them. -/
inductive JsVal where
  | undefined : JsVal
  | null : JsVal
  | bool (b : Bool) : JsVal
  | num (n : Int) : JsVal
  | str (s : String) : JsVal
  | arr (items : List JsVal) : JsVal
  | obj (fields : List (String × JsVal)) : JsVal

/-- A thrown value: the constructor name of the error and its message. -/
structure JsErr where
  name : String
  message : String
deriving DecidableEq, Repr

/-- The value of `new Error(msg)`. -/
def mkError (msg : String) : JsErr := ⟨"Error", msg⟩

/-- The value of a runtime `TypeError`. -/
def mkTypeError (msg : String) : JsErr := ⟨"TypeError", msg⟩

/-- `Error.prototype.toString`: what `String(err)` gives for an error. -/
def JsErr.toStr (e : JsErr) : String :=
  if e.message = "" then e.name
  else if e.name = "" then e.message
  else e.name ++ ": " ++ e.message

/-- Connection handles lent by the pool. -/
abbrev Conn := Nat

/-- HTTP methods the application routes on. -/
inductive Method where
  | GET | HEAD | POST | PUT | DELETE | OTHER
deriving DecidableEq, Repr

/-! ## Request state and the log of external calls -/

/-- One entry of the log, in the order the calls are made. -/
inductive Event where
  | acquired (c : Conn) : Event
  | acquireFailed : Event
  | namedPlaceholders (c : Conn) : Event
  | query (c : Conn) (sql : String) (params : List (String × JsVal)) : Event
  | release (c : Conn) : Event
  | json (body : JsVal) : Event
  | notFound : Event

/-- The request object: what arrives (`method`, `path`, the Authorization
header, the unparsed body is left to the body parser) and what the middleware
attach (`db`, `body`, `params`, `user`); `none` is an unset property. -/
structure Req where
  method : Method
  path : String
  authorization : Option String
  body : JsVal
  params : JsVal
  db : Option Conn
  user : Option JsVal

/-- The state a stage runs in. -/
structure St where
  req : Req
  trace : List Event

/-- The libraries and the process environment the file calls into. -/
structure World where
  /-- Outcome of `pool.getConnection()`. -/
  getConnection : Except JsErr Conn
  /-- Outcome of `conn.query(sql, params)`; the value is the first component of
  the resolved pair. -/
  query : Conn → String → List (String × JsVal) → Except JsErr JsVal
  /-- Outcome of `bodyParser.json()` on the request: the parsed body. -/
  parseBody : Req → Except JsErr JsVal
  /-- Express route matching of a mount pattern against a path: the route
  parameters when it matches. -/
  matchPath : String → String → Option JsVal
  /-- Outcome of `jsonwebtoken.verify(token, key)`; `none` is `undefined`. -/
  jwtVerify : Option String → Option String → Except JsErr JsVal
  /-- Outcome of `jsonwebtoken.sign(payload, key, {expiresIn})`. -/
  jwtSign : JsVal → Option String → String → Except JsErr String
  /-- Outcome of `scrypt.kdfSync(password, {N, r, p})`, the three cost
  parameters as read from the environment. -/
  kdfSync : JsVal → Option String → Option String → Option String → Except JsErr JsVal
  /-- Outcome of `scrypt.verifyKdf(Buffer.from(stored, 'base64'), supplied)`. -/
  verifyKdf : JsVal → JsVal → Except JsErr Bool
  /-- Lookup in `process.env`. -/
  env : String → Option String

/-- A stage: from a state to an outcome and the state it leaves. -/
def M (α : Type) : Type := St → Except JsErr α × St

/-- Normal return. -/
def M.pure {α : Type} (a : α) : M α := fun s => (.ok a, s)

/-- Sequencing: a throw of the first part skips the second. -/
def M.bind {α β : Type} (m : M α) (f : α → M β) : M β := fun s =>
  match m s with
  | (.ok a, s1) => f a s1
  | (.error e, s1) => (.error e, s1)

instance : Monad M where
  pure := M.pure
  bind := M.bind

/-- The statement `throw e`. -/
def throwJs {α : Type} (e : JsErr) : M α := fun s => (.error e, s)

/-- The statement `try { body } catch (e) { handler }`. -/
def tryCatchJs {α : Type} (body : M α) (handler : JsErr → M α) : M α := fun s =>
  match body s with
  | (.ok a, s1) => (.ok a, s1)
  | (.error e, s1) => handler e s1

/-- Read the request. -/
def getReq : M Req := fun s => (.ok s.req, s)

/-- Append one entry to the log. -/
def emit (e : Event) : M Unit := fun s => (.ok (), { s with trace := s.trace ++ [e] })

/-- Lift the outcome of a library call. -/
def liftExcept {α : Type} (r : Except JsErr α) : M α := fun s => (r, s)

/-! ## The session middleware (lines 24-41) -/

/-- The call `pool.getConnection()`. -/
def poolGetConnection (W : World) : M Conn := fun s =>
  match W.getConnection with
  | .ok c => (.ok c, { s with trace := s.trace ++ [Event.acquired c] })
  | .error e => (.error e, { s with trace := s.trace ++ [Event.acquireFailed] })

/-- The assignment `req.db = c`. -/
def setDb (c : Conn) : M Unit := fun s => (.ok (), { s with req := { s.req with db := some c } })

/-- The assignment `req.db.connection.config.namedPlaceholders = true`. -/
def setNamedPlaceholders : M Unit := fun s =>
  match s.req.db with
  | none => (.error (mkTypeError "Cannot read properties of undefined (reading 'connection')"), s)
  | some c => (.ok (), { s with trace := s.trace ++ [Event.namedPlaceholders c] })

/-- The call `req.db.query(sql, params)`. -/
def dbQuery (W : World) (sql : String) (params : List (String × JsVal)) : M JsVal := fun s =>
  match s.req.db with
  | none => (.error (mkTypeError "Cannot read properties of undefined (reading 'query')"), s)
  | some c => (W.query c sql params, { s with trace := s.trace ++ [Event.query c sql params] })

/-- The call `req.db.release()`. -/
def dbRelease : M Unit := fun s =>
  match s.req.db with
  | none => (.error (mkTypeError "Cannot read properties of undefined (reading 'release')"), s)
  | some c => (.ok (), { s with trace := s.trace ++ [Event.release c] })

/-- The statement `if (req.db) req.db.release()`. -/
def releaseIfDb : M Unit := fun s =>
  match s.req.db with
  | none => (.ok (), s)
  | some _ => dbRelease s

/-- The first configuration statement. -/
def sqlMode : String := "SET SESSION sql_mode = \"TRADITIONAL\""

/-- The second configuration statement. -/
def sqlTimeZone : String := "SET time_zone = '-8:00'"

/-- The middleware `mysqlConnection`. -/
def mysqlConnection (W : World) (next : M Unit) : M Unit :=
  tryCatchJs
    (do
      let c ← poolGetConnection W
      setDb c
      setNamedPlaceholders
      let _ ← dbQuery W sqlMode []
      let _ ← dbQuery W sqlTimeZone []
      next
      dbRelease)
    (fun e => do
      releaseIfDb
      throwJs e)

/-! ## The bearer-token gate (lines 56-75) -/

/-- The method `split(sep)` of a string, on its characters: the fields between
the occurrences of `sep`, empty fields included. -/
def splitChars (sep : Char) : List Char → List (List Char)
  | [] => [[]]
  | c :: cs =>
    if c = sep then [] :: splitChars sep cs
    else
      match splitChars sep cs with
      | [] => [[c]]
      | f :: fs => (c :: f) :: fs

/-- The expression `h.split(' ')`. -/
def splitSpace (h : String) : List String :=
  (splitChars ' ' h.data).map String.mk

/-- The destructuring `const [scheme, token] = h.split(' ')`: the first two
fields, `none` for a field the array does not have. -/
def schemeAndToken (h : String) : Option String × Option String :=
  ((splitSpace h).get? 0, (splitSpace h).get? 1)

/-- The assignment `req.user = payload`. -/
def setUser (payload : JsVal) : M Unit := fun s =>
  (.ok (), { s with req := { s.req with user := some payload } })

/-- The gate mounted with `app.use` after `GET /`. -/
def authGate (W : World) (next : M Unit) : M Unit := do
  let req ← getReq
  match req.authorization with
  | none => throwJs (mkError "Authorization header is required")
  | some h =>
    if h = "" then throwJs (mkError "Authorization header is required")
    else
      let (scheme, token) := schemeAndToken h
      if scheme ≠ some "Bearer" then throwJs (mkError "Invalid authorization")
      else do
        tryCatchJs
          (do
            let payload ← liftExcept (W.jwtVerify token (W.env "JWT_KEY"))
            setUser payload)
          (fun err => throwJs (mkError err.toStr))
        next

/-! ## Route handlers -/

/-- Property read `v.key`: a `TypeError` on `undefined` and `null`, the field
of an object, `undefined` for a field the value does not have. The members a
value inherits from its prototype (such as the methods of a string) are not
represented in `JsVal`; the rows, bodies and payloads the handlers read are
plain objects. -/
def getProp (v : JsVal) (key : String) : Except JsErr JsVal :=
  match v with
  | .undefined =>
    .error (mkTypeError ("Cannot read properties of undefined (reading '" ++ key ++ "')"))
  | .null =>
    .error (mkTypeError ("Cannot read properties of null (reading '" ++ key ++ "')"))
  | .obj fields =>
    match fields.lookup key with
    | some x => .ok x
    | none => .ok .undefined
  | _ => .ok .undefined

/-- Property read `req.user.key`. -/
def userProp (req : Req) (key : String) : Except JsErr JsVal :=
  match req.user with
  | none => getProp .undefined key
  | some u => getProp u key

/-- The call `res.json(body)`. -/
def resJson (body : JsVal) : M Unit := emit (Event.json body)

/-- The destructuring `const [x] = v` of an array pattern against a value:
the first element of an array, the first character of a string, `undefined`
when there is none, and a `TypeError` on a value that is not iterable. -/
def firstItem (v : JsVal) : Except JsErr JsVal :=
  match v with
  | .arr [] => .ok .undefined
  | .arr (x :: _) => .ok x
  | .str t =>
    match t.data with
    | [] => .ok .undefined
    | ch :: _ => .ok (.str (String.singleton ch))
  | .undefined =>
    .error (mkTypeError
      "undefined is not iterable (cannot read property Symbol(Symbol.iterator))")
  | .null =>
    .error (mkTypeError
      "object null is not iterable (cannot read property Symbol(Symbol.iterator))")
  | .bool b =>
    .error (mkTypeError
      ("boolean " ++ toString b ++ " is not iterable (cannot read property Symbol(Symbol.iterator))"))
  | .num n =>
    .error (mkTypeError
      ("number " ++ toString n ++ " is not iterable (cannot read property Symbol(Symbol.iterator))"))
  | .obj _ =>
    .error (mkTypeError
      "object is not iterable (cannot read property Symbol(Symbol.iterator))")

/-- The query of `GET /`. -/
def sqlListCars : String :=
  "\n    SELECT c.id, c.model, m.name AS make_name\n    FROM car c\n    LEFT JOIN car_make m\n    ON c.make_id = m.id\n  "

/-- The handler of `GET /` (lines 45-54). -/
def getCars (W : World) : M Unit := do
  let cars ← dbQuery W sqlListCars []
  resJson cars

/-- The query of `POST /`. -/
def sqlInsertCar : String :=
  "\n    INSERT INTO car (created_user_id, make_id, model, date_created)\n    VALUES (:created_user_id, :make_id, :model, NOW())\n  "

/-- The handler of `POST /` (lines 77-91). -/
def postCar (W : World) : M Unit := do
  let req ← getReq
  let sub ← liftExcept (userProp req "sub")
  let makeId ← liftExcept (getProp req.body "make_id")
  let model ← liftExcept (getProp req.body "model")
  let cars ← dbQuery W sqlInsertCar
    [("created_user_id", sub), ("make_id", makeId), ("model", model)]
  resJson cars

/-- The query of `POST /auth/register`. -/
def sqlInsertUser : String :=
  "\n    INSERT INTO user (email, password)\n    VALUES (:email, :hashedPassword)\n  "

/-- The handler of `POST /auth/register` (lines 93-112). -/
def register (W : World) : M Unit := do
  let req ← getReq
  let password ← liftExcept (getProp req.body "password")
  let hashedPassword ← liftExcept
    (W.kdfSync password (W.env "SCRYPT_N_VAL") (W.env "SCRYPT_R_VAL") (W.env "SCRYPT_P_VAL"))
  let email ← liftExcept (getProp req.body "email")
  let stmt ← dbQuery W sqlInsertUser [("email", email), ("hashedPassword", hashedPassword)]
  resJson stmt

/-- The query of `POST /auth/login`. -/
def sqlSelectUser : String := "SELECT * FROM user WHERE email = :email"

/-- The handler of `POST /auth/login` (lines 114-139). -/
def login (W : World) : M Unit := do
  let req ← getReq
  let email ← liftExcept (getProp req.body "email")
  let rows ← dbQuery W sqlSelectUser [("email", email)]
  let user ← liftExcept (firstItem rows)
  let stored ← liftExcept (getProp user "password")
  let supplied ← liftExcept (getProp req.body "password")
  let isMatch ← liftExcept (W.verifyKdf stored supplied)
  if isMatch then do
    let id ← liftExcept (getProp user "id")
    let token ← liftExcept (W.jwtSign (.obj [("sub", id)]) (W.env "JWT_KEY") "24h")
    resJson (.obj [("jwt", .str token)])
  else
    resJson (.str "Nice try, dummy")

/-- The query of `PUT /:id`. -/
def sqlUpdateCar : String := "\n    UPDATE car SET model = :model WHERE id = :id\n  "

/-- The handler of `PUT /:id` (lines 141-153). -/
def putCar (W : World) : M Unit := do
  let req ← getReq
  let model ← liftExcept (getProp req.body "model")
  let id ← liftExcept (getProp req.params "id")
  let cars ← dbQuery W sqlUpdateCar [("model", model), ("id", id)]
  resJson cars

/-- The query of `DELETE /:id`. -/
def sqlDeleteCar : String := "\n    DELETE FROM car WHERE id = :id\n  "

/-- The handler of `DELETE /:id` (lines 155-166). -/
def deleteCar (W : World) : M Unit := do
  let req ← getReq
  let id ← liftExcept (getProp req.params "id")
  let cars ← dbQuery W sqlDeleteCar [("id", id)]
  resJson cars

/-! ## The application: the stages in mount order -/

/-- The assignment `req.body = body`, made by the body parser. -/
def setBody (body : JsVal) : M Unit := fun s =>
  (.ok (), { s with req := { s.req with body := body } })

/-- The assignment `req.params = params`, made by the router on a match. -/
def setParams (params : JsVal) : M Unit := fun s =>
  (.ok (), { s with req := { s.req with params := params } })

/-- The middleware `bodyParser.json()` (line 43): attach the parsed body and go
on, or fail the request with the parser's error. -/
def bodyParserJson (W : World) (next : M Unit) : M Unit := do
  let req ← getReq
  let body ← liftExcept (W.parseBody req)
  setBody body
  next

/-- Whether a route mounted for method `m` takes a request of method `r`: the
same method, and Express also gives a `HEAD` request to a `GET` route. -/
def methodMatches (m r : Method) : Bool :=
  r = m || (m = .GET && r = .HEAD)

/-- A route `app.METHOD(pattern, handler)`: the handler when method and path
match, the next stage otherwise. No handler of the file calls `next`. -/
def route (W : World) (m : Method) (pattern : String) (handler : M Unit) (next : M Unit) :
    M Unit := do
  let req ← getReq
  if methodMatches m req.method then
    match W.matchPath pattern req.path with
    | some params =>
      setParams params
      handler
    | none => next
  else next

/-- What Express does when no stage takes the request. -/
def notFound : M Unit := emit Event.notFound

/-- The stages mounted after the gate (lines 77-166). -/
def protectedRoutes (W : World) : M Unit :=
  route W .POST "/" (postCar W) <|
  route W .POST "/auth/register" (register W) <|
  route W .POST "/auth/login" (login W) <|
  route W .PUT "/:id" (putCar W) <|
  route W .DELETE "/:id" (deleteCar W) <|
  notFound

/-- The stages mounted after `mysqlConnection` (lines 43-166). -/
def downstream (W : World) : M Unit :=
  bodyParserJson W <|
  route W .GET "/" (getCars W) <|
  authGate W <|
  protectedRoutes W

/-- The whole application (lines 24-166), with each `await next()` read as the
source reads it (line 37): the stages after it run to their outcome before the
statement after the `await`, and a throw of theirs is a throw at the `await`.
Express itself returns from `next()` without waiting for an asynchronous stage,
so in a run under Express the release of line 35 can precede the downstream
calls; the theorems on `mysqlConnection` and `authGate` are stated for every
`next` and do not depend on this reading. -/
def app (W : World) : M Unit :=
  mysqlConnection W (downstream W)

/-! ## A concrete world -/

/-- The row of the one stored user of `demoWorld`. -/
def demoUser : JsVal :=
  .obj [("id", .num 7), ("email", .str "ann@example.org"), ("password", .str "c2VjcmV0")]

/-- The payload `demoWorld` decodes from its one valid token. -/
def demoPayload : JsVal :=
  .obj [("sub", .num 7), ("iat", .num 1000), ("exp", .num 87400)]

/-- A world in which every library call succeeds: one connection `1`, one
stored user with id `7` and password `secret`, one signing key, and one token
`h.p.s` that the token library issues for subject `7` and accepts. -/
def demoWorld : World where
  getConnection := .ok 1
  query := fun _ sql params =>
    if sql = sqlSelectUser then
      match params with
      | [(_, .str "ann@example.org")] => .ok (.arr [demoUser])
      | _ => .ok (.arr [])
    else .ok (.arr [])
  parseBody := fun req => .ok req.body
  matchPath := fun pattern path => if pattern = path then some (.obj []) else none
  jwtVerify := fun token key =>
    match token, key with
    | some "h.p.s", some "k" => .ok demoPayload
    | _, _ => .error ⟨"JsonWebTokenError", "invalid token"⟩
  jwtSign := fun payload key _ =>
    match payload, key with
    | .obj [("sub", .num 7)], some "k" => .ok "h.p.s"
    | _, _ => .error ⟨"Error", "secretOrPrivateKey must have a value"⟩
  kdfSync := fun _ _ _ _ => .ok (.str "c2VjcmV0")
  verifyKdf := fun stored supplied =>
    match stored, supplied with
    | .str "c2VjcmV0", .str "secret" => .ok true
    | _, _ => .ok false
  env := fun name => if name = "JWT_KEY" then some "k" else none

/-- The error of `unreachableWorld`. -/
def refused : JsErr := ⟨"Error", "connect ECONNREFUSED 127.0.0.1:3306"⟩

/-- The world of `demoWorld` with the database unreachable. -/
def unreachableWorld : World := { demoWorld with getConnection := .error refused }

/-- The error of `strictRefusedWorld`. -/
def modeRefused : JsErr := ⟨"Error", "Variable 'sql_mode' can't be set to the value of 'TRADITIONAL'"⟩

/-- The world of `demoWorld` with the server refusing the sql_mode statement. -/
def strictRefusedWorld : World :=
  { demoWorld with
    query := fun c sql params =>
      if sql = "SET SESSION sql_mode = \"TRADITIONAL\"" then .error modeRefused
      else demoWorld.query c sql params }

/-- A request as a route handler finds it in `demoWorld`: connection `1`
attached, the body parsed. -/
def handlerRequest (m : Method) (path : String) (body : JsVal) : St :=
  { req := { method := m, path := path, authorization := none, body := body,
             params := .obj [], db := some 1, user := none },
    trace := [] }

/-- A login body. -/
def credentials (email password : String) : JsVal :=
  .obj [("email", .str email), ("password", .str password)]

/-- A request as it reaches the first stage: nothing attached, empty log. -/
def freshRequest (m : Method) (path : String) (authorization : Option String) (body : JsVal) :
    St :=
  { req := { method := m, path := path, authorization := authorization, body := body,
             params := .undefined, db := none, user := none },
    trace := [] }

/-! ## Observations on the log -/

/-- Whether an entry is a release of connection `c`. -/
def Event.isReleaseOf (c : Conn) : Event → Bool
  | .release d => d == c
  | _ => false

/-- Whether an entry is a release. -/
def Event.isRelease : Event → Bool
  | .release _ => true
  | _ => false

/-- Whether an entry is a successful acquisition. -/
def Event.isAcquired : Event → Bool
  | .acquired _ => true
  | _ => false

/-- Number of releases of connection `c` in a log. -/
def releasesOf (c : Conn) (tr : List Event) : Nat := tr.countP (Event.isReleaseOf c)

/-- Number of pool-release calls in a log. -/
def releaseCount (tr : List Event) : Nat := tr.countP Event.isRelease

/-- Number of successful pool-acquire calls in a log. -/
def acquireCount (tr : List Event) : Nat := tr.countP Event.isAcquired

/-- Two states with the same attached connection and the same pool calls in
their logs. -/
def SamePool (s t : St) : Prop :=
  t.req.db = s.req.db ∧
    releaseCount t.trace = releaseCount s.trace ∧
    acquireCount t.trace = acquireCount s.trace ∧
    ∀ c, releasesOf c t.trace = releasesOf c s.trace

/-- A stage that leaves the pool alone: it keeps `req.db` and makes no acquire
or release call of its own. -/
def KeepsPool {α : Type} (m : M α) : Prop :=
  ∀ s : St, SamePool s (m s).2

/-! ## States and errors the theorems name -/

/-- The state in which `mysqlConnection` issues its first statement: the
connection `c` is attached and its placeholder flag set. -/
def afterAcquire (c : Conn) (s : St) : St :=
  { req := { s.req with db := some c },
    trace := s.trace ++ [Event.acquired c] ++ [Event.namedPlaceholders c] }

/-- One more entry in the log. -/
def logged (e : Event) (s : St) : St := { s with trace := s.trace ++ [e] }

/-- The state in which `mysqlConnection` calls the next stage. -/
def beforeNext (c : Conn) (s : St) : St :=
  logged (Event.query c sqlTimeZone []) (logged (Event.query c sqlMode []) (afterAcquire c s))

/-- The state `s` with the Authorization header set to `h`. -/
def withHeader (h : String) (s : St) : St :=
  { s with req := { s.req with authorization := some h } }

/-- The state after `req.user = payload`. -/
def attach (payload : JsVal) (s : St) : St :=
  { s with req := { s.req with user := some payload } }

/-- The error of a request without the header. -/
def headerRequired : JsErr := mkError "Authorization header is required"

/-- The error of a scheme other than `Bearer`. -/
def invalidAuthorization : JsErr := mkError "Invalid authorization"

/-- The error of a credential the token library rejects with `err`. -/
def rejectedToken (err : JsErr) : JsErr := mkError err.toStr

/-- The log of a request on which the session middleware ran and the gate
refused: nothing between the two configuration statements and the release. -/
def refusedLog : List Event :=
  [Event.acquired 1, Event.namedPlaceholders 1, Event.query 1 sqlMode [],
    Event.query 1 sqlTimeZone [], Event.release 1]

/-! ## Theorems: the session middleware -/

theorem bind_apply {α β : Type} (m : M α) (f : α → M β) (s : St) :
    (m >>= f) s = M.bind m f s := rfl

/-- Acquisition fails: the error is rethrown at once. -/
theorem mysqlConnection_of_acquire_error (W : World) (next : M Unit) (s : St) (e : JsErr)
    (hacq : W.getConnection = .error e) (hfresh : s.req.db = none) :
    mysqlConnection W next s = (.error e, logged Event.acquireFailed s) := by
  simp [mysqlConnection, tryCatchJs, bind_apply, M.bind, poolGetConnection, hacq, releaseIfDb,
    throwJs, hfresh, logged]

/-- The first statement fails: release and rethrow. -/
theorem mysqlConnection_of_mode_error (W : World) (next : M Unit) (s : St) (c : Conn) (e : JsErr)
    (hacq : W.getConnection = .ok c) (h1 : W.query c sqlMode [] = .error e) :
    mysqlConnection W next s
      = (.error e, logged (Event.release c) (logged (Event.query c sqlMode []) (afterAcquire c s))) := by
  simp [mysqlConnection, tryCatchJs, bind_apply, M.bind, poolGetConnection, hacq, releaseIfDb,
    throwJs, logged, setDb, setNamedPlaceholders, dbQuery, h1, dbRelease, afterAcquire]

/-- The second statement fails: release and rethrow. -/
theorem mysqlConnection_of_zone_error (W : World) (next : M Unit) (s : St) (c : Conn) (v : JsVal)
    (e : JsErr) (hacq : W.getConnection = .ok c) (h1 : W.query c sqlMode [] = .ok v)
    (h2 : W.query c sqlTimeZone [] = .error e) :
    mysqlConnection W next s = (.error e, logged (Event.release c) (beforeNext c s)) := by
  simp [mysqlConnection, tryCatchJs, bind_apply, M.bind, poolGetConnection, hacq, releaseIfDb,
    throwJs, logged, setDb, setNamedPlaceholders, dbQuery, h1, h2, dbRelease, afterAcquire,
    beforeNext]

/-- Both statements succeed: the next stage runs in `beforeNext c s`, and the
connection then attached to the request is released, on return and on throw. -/
theorem mysqlConnection_of_configured (W : World) (next : M Unit) (s : St) (c : Conn)
    (v1 v2 : JsVal) (hacq : W.getConnection = .ok c) (h1 : W.query c sqlMode [] = .ok v1)
    (h2 : W.query c sqlTimeZone [] = .ok v2) :
    mysqlConnection W next s =
      match next (beforeNext c s) with
      | (.ok _, s1) => dbRelease s1
      | (.error e, s1) => (releaseIfDb >>= fun _ => throwJs e) s1 := by
  rcases hn : next (beforeNext c s) with ⟨r, s1⟩
  simp only [beforeNext, logged, afterAcquire] at hn
  simp only [mysqlConnection, tryCatchJs, bind_apply, M.bind, poolGetConnection, hacq, setDb,
    setNamedPlaceholders, dbQuery, h1, h2, hn]
  cases r with
  | error e => rfl
  | ok u =>
    simp only []
    cases hdb : s1.req.db with
    | none => simp [dbRelease, hdb, releaseIfDb, throwJs]
    | some d => simp [dbRelease, hdb]

/-! ## The stages after the session middleware leave the pool alone -/

theorem SamePool.refl (s : St) : SamePool s s := ⟨rfl, rfl, rfl, fun _ => rfl⟩

theorem SamePool.trans {s t u : St} (h1 : SamePool s t) (h2 : SamePool t u) : SamePool s u :=
  ⟨h2.1.trans h1.1, h2.2.1.trans h1.2.1, h2.2.2.1.trans h1.2.2.1,
    fun c => (h2.2.2.2 c).trans (h1.2.2.2 c)⟩

theorem keepsPool_pure {α : Type} (a : α) : KeepsPool (Pure.pure a : M α) :=
  fun s => SamePool.refl s

theorem keepsPool_bind {α β : Type} (m : M α) (f : α → M β) (hm : KeepsPool m)
    (hf : ∀ a, KeepsPool (f a)) : KeepsPool (m >>= f) := by
  intro s
  have h1 := hm s
  rw [bind_apply]
  unfold M.bind
  rcases hms : m s with ⟨r, s1⟩
  rw [hms] at h1
  cases r with
  | error e => exact h1
  | ok a => exact h1.trans (hf a s1)

theorem keepsPool_throwJs {α : Type} (e : JsErr) : KeepsPool (throwJs e : M α) :=
  fun s => SamePool.refl s

theorem keepsPool_getReq : KeepsPool getReq := fun s => SamePool.refl s

theorem keepsPool_liftExcept {α : Type} (r : Except JsErr α) : KeepsPool (liftExcept r) :=
  fun s => SamePool.refl s

theorem keepsPool_tryCatchJs {α : Type} (body : M α) (handler : JsErr → M α)
    (hb : KeepsPool body) (hh : ∀ e, KeepsPool (handler e)) :
    KeepsPool (tryCatchJs body handler) := by
  intro s
  have h1 := hb s
  unfold tryCatchJs
  rcases hbs : body s with ⟨r, s1⟩
  rw [hbs] at h1
  cases r with
  | error e => exact h1.trans (hh e s1)
  | ok a => exact h1

theorem keepsPool_setUser (p : JsVal) : KeepsPool (setUser p) :=
  fun s => SamePool.refl s

theorem keepsPool_resJson (v : JsVal) : KeepsPool (resJson v) := by
  intro s
  simp [SamePool, resJson, emit, releaseCount, acquireCount, releasesOf, List.countP_append,
    Event.isRelease, Event.isAcquired, Event.isReleaseOf]

theorem keepsPool_notFound : KeepsPool notFound := by
  intro s
  simp [SamePool, notFound, emit, releaseCount, acquireCount, releasesOf, List.countP_append,
    Event.isRelease, Event.isAcquired, Event.isReleaseOf]

theorem keepsPool_dbQuery (W : World) (sql : String) (params : List (String × JsVal)) :
    KeepsPool (dbQuery W sql params) := by
  intro s
  unfold dbQuery
  cases hdb : s.req.db with
  | none => exact SamePool.refl s
  | some c =>
    simp [SamePool, hdb, releaseCount, acquireCount, releasesOf, List.countP_append,
      Event.isRelease, Event.isAcquired, Event.isReleaseOf]

theorem keepsPool_setBody (v : JsVal) : KeepsPool (setBody v) :=
  fun s => SamePool.refl s

theorem keepsPool_setParams (v : JsVal) : KeepsPool (setParams v) :=
  fun s => SamePool.refl s

theorem keepsPool_getCars (W : World) : KeepsPool (getCars W) := by
  unfold getCars
  repeat' (first
    | exact keepsPool_getReq | exact keepsPool_liftExcept _ | exact keepsPool_dbQuery _ _ _
    | exact keepsPool_resJson _ | apply keepsPool_bind | intro _)

theorem keepsPool_postCar (W : World) : KeepsPool (postCar W) := by
  unfold postCar
  repeat' (first
    | exact keepsPool_getReq | exact keepsPool_liftExcept _ | exact keepsPool_dbQuery _ _ _
    | exact keepsPool_resJson _ | apply keepsPool_bind | intro _)

theorem keepsPool_register (W : World) : KeepsPool (register W) := by
  unfold register
  repeat' (first
    | exact keepsPool_getReq | exact keepsPool_liftExcept _ | exact keepsPool_dbQuery _ _ _
    | exact keepsPool_resJson _ | apply keepsPool_bind | intro _)

theorem keepsPool_login (W : World) : KeepsPool (login W) := by
  unfold login
  repeat' (first
    | exact keepsPool_getReq | exact keepsPool_liftExcept _ | exact keepsPool_dbQuery _ _ _
    | exact keepsPool_resJson _ | apply keepsPool_bind | split | intro _)

theorem keepsPool_putCar (W : World) : KeepsPool (putCar W) := by
  unfold putCar
  repeat' (first
    | exact keepsPool_getReq | exact keepsPool_liftExcept _ | exact keepsPool_dbQuery _ _ _
    | exact keepsPool_resJson _ | apply keepsPool_bind | intro _)

theorem keepsPool_deleteCar (W : World) : KeepsPool (deleteCar W) := by
  unfold deleteCar
  repeat' (first
    | exact keepsPool_getReq | exact keepsPool_liftExcept _ | exact keepsPool_dbQuery _ _ _
    | exact keepsPool_resJson _ | apply keepsPool_bind | intro _)

theorem keepsPool_route (W : World) (m : Method) (pattern : String) (handler next : M Unit)
    (hh : KeepsPool handler) (hn : KeepsPool next) :
    KeepsPool (route W m pattern handler next) := by
  unfold route
  repeat' (first
    | exact keepsPool_getReq | exact keepsPool_setParams _ | exact hh | exact hn
    | apply keepsPool_bind | split | intro _)

theorem keepsPool_bodyParserJson (W : World) (next : M Unit) (hn : KeepsPool next) :
    KeepsPool (bodyParserJson W next) := by
  unfold bodyParserJson
  repeat' (first
    | exact keepsPool_getReq | exact keepsPool_liftExcept _ | exact keepsPool_setBody _
    | exact hn | apply keepsPool_bind | intro _)

theorem keepsPool_authGate (W : World) (next : M Unit) (hn : KeepsPool next) :
    KeepsPool (authGate W next) := by
  unfold authGate
  repeat' (first
    | exact keepsPool_getReq | exact keepsPool_liftExcept _ | exact keepsPool_setUser _
    | exact keepsPool_throwJs _ | exact hn | apply keepsPool_bind | apply keepsPool_tryCatchJs
    | split | intro _)

theorem keepsPool_protectedRoutes (W : World) : KeepsPool (protectedRoutes W) := by
  unfold protectedRoutes
  repeat' (first
    | exact keepsPool_postCar W | exact keepsPool_register W | exact keepsPool_login W
    | exact keepsPool_putCar W | exact keepsPool_deleteCar W | exact keepsPool_notFound
    | apply keepsPool_route)

/-- The stages mounted after `mysqlConnection` never touch the pool. -/
theorem keepsPool_downstream (W : World) : KeepsPool (downstream W) := by
  unfold downstream
  exact keepsPool_bodyParserJson W _ (keepsPool_route W _ _ _ _ (keepsPool_getCars W)
    (keepsPool_authGate W _ (keepsPool_protectedRoutes W)))

/-! ## Claims about the session middleware -/

/-- C1: when acquisition succeeds the acquired connection is released exactly
once, whatever the two configuration statements and the downstream stage do, and
for every request the releases made equal the successful acquisitions made. -/
theorem mysqlConnection_release_exactly_once (W : World) (next : M Unit) (s : St)
    (hnext : KeepsPool next) (hfresh : s.req.db = none) :
    (∀ c, W.getConnection = .ok c →
        releasesOf c (mysqlConnection W next s).2.trace = releasesOf c s.trace + 1 ∧
        releaseCount (mysqlConnection W next s).2.trace = releaseCount s.trace + 1) ∧
      releaseCount (mysqlConnection W next s).2.trace + acquireCount s.trace
        = acquireCount (mysqlConnection W next s).2.trace + releaseCount s.trace := by
  cases hacq : W.getConnection with
  | error e =>
    rw [mysqlConnection_of_acquire_error W next s e hacq hfresh]
    refine ⟨fun c hc => (by cases hc), ?_⟩
    simp [logged, releaseCount, acquireCount, List.countP_append, Event.isRelease,
      Event.isAcquired, Nat.add_comm]
  | ok c =>
    have key : releasesOf c (mysqlConnection W next s).2.trace = releasesOf c s.trace + 1 ∧
        releaseCount (mysqlConnection W next s).2.trace = releaseCount s.trace + 1 ∧
        acquireCount (mysqlConnection W next s).2.trace = acquireCount s.trace + 1 := by
      cases h1 : W.query c sqlMode [] with
      | error e =>
        rw [mysqlConnection_of_mode_error W next s c e hacq h1]
        simp [logged, afterAcquire, releaseCount, acquireCount, releasesOf, List.countP_append,
          Event.isRelease, Event.isAcquired, Event.isReleaseOf]
      | ok v1 =>
        cases h2 : W.query c sqlTimeZone [] with
        | error e =>
          rw [mysqlConnection_of_zone_error W next s c v1 e hacq h1 h2]
          simp [logged, afterAcquire, beforeNext, releaseCount, acquireCount, releasesOf,
            List.countP_append, Event.isRelease, Event.isAcquired, Event.isReleaseOf]
        | ok v2 =>
          rw [mysqlConnection_of_configured W next s c v1 v2 hacq h1 h2]
          obtain ⟨hdb, hrel, hacqs, hof⟩ := hnext (beforeNext c s)
          have hof := hof c
          have hdb1 : (next (beforeNext c s)).2.req.db = some c := by rw [hdb]; rfl
          have b1 : releasesOf c (beforeNext c s).trace = releasesOf c s.trace := by
            simp [logged, afterAcquire, beforeNext, releasesOf, List.countP_append,
              Event.isReleaseOf]
          have b2 : releaseCount (beforeNext c s).trace = releaseCount s.trace := by
            simp [logged, afterAcquire, beforeNext, releaseCount, List.countP_append,
              Event.isRelease]
          have b3 : acquireCount (beforeNext c s).trace = acquireCount s.trace + 1 := by
            simp [logged, afterAcquire, beforeNext, acquireCount, List.countP_append,
              Event.isAcquired]
          rw [b1] at hof
          rw [b2] at hrel
          rw [b3] at hacqs
          rcases hn : next (beforeNext c s) with ⟨r, s1⟩
          rw [hn] at hdb1 hof hrel hacqs
          simp only [] at hdb1 hof hrel hacqs
          cases r with
          | error e =>
            simp [bind_apply, M.bind, releaseIfDb, dbRelease, hdb1, throwJs, releaseCount,
              acquireCount, releasesOf, List.countP_append, Event.isRelease, Event.isAcquired,
              Event.isReleaseOf] at hof hrel hacqs ⊢
            exact ⟨hof, hrel, hacqs⟩
          | ok u =>
            simp [dbRelease, hdb1, releaseCount, acquireCount, releasesOf, List.countP_append,
              Event.isRelease, Event.isAcquired, Event.isReleaseOf] at hof hrel hacqs ⊢
            exact ⟨hof, hrel, hacqs⟩
    refine ⟨fun d hd => ?_, ?_⟩
    · cases hd
      exact ⟨key.1, key.2.1⟩
    · rw [key.2.1, key.2.2]
      omega


/-- C1 at a concrete request: `POST /auth/login` in `demoWorld`, with the real
downstream stages as `next`. -/
theorem mysqlConnection_release_exactly_once_witness :
    KeepsPool (downstream demoWorld) ∧
    (freshRequest .POST "/auth/login" none .undefined).req.db = none ∧
    ((∀ c, demoWorld.getConnection = .ok c →
        releasesOf c (mysqlConnection demoWorld (downstream demoWorld)
            (freshRequest .POST "/auth/login" none .undefined)).2.trace
          = releasesOf c (freshRequest .POST "/auth/login" none .undefined).trace + 1 ∧
        releaseCount (mysqlConnection demoWorld (downstream demoWorld)
            (freshRequest .POST "/auth/login" none .undefined)).2.trace
          = releaseCount (freshRequest .POST "/auth/login" none .undefined).trace + 1) ∧
      releaseCount (mysqlConnection demoWorld (downstream demoWorld)
          (freshRequest .POST "/auth/login" none .undefined)).2.trace
        + acquireCount (freshRequest .POST "/auth/login" none .undefined).trace
        = acquireCount (mysqlConnection demoWorld (downstream demoWorld)
            (freshRequest .POST "/auth/login" none .undefined)).2.trace
          + releaseCount (freshRequest .POST "/auth/login" none .undefined).trace) :=
  ⟨keepsPool_downstream demoWorld, rfl,
    mysqlConnection_release_exactly_once demoWorld (downstream demoWorld)
      (freshRequest .POST "/auth/login" none .undefined) (keepsPool_downstream demoWorld) rfl⟩

/-- C6: when acquisition fails the middleware throws the acquisition error, and
what it does is the same for every next stage: the next stage is not run. On a
request with no connection attached the log gains the failed acquisition only. -/
theorem mysqlConnection_acquire_failure (W : World) (s : St) (e : JsErr)
    (hacq : W.getConnection = .error e) :
    (∀ next, (mysqlConnection W next s).1 = .error e) ∧
    (∀ next next2, mysqlConnection W next s = mysqlConnection W next2 s) ∧
    (s.req.db = none →
      ∀ next, mysqlConnection W next s = (.error e, logged Event.acquireFailed s)) := by
  refine ⟨fun next => ?_, fun next next2 => ?_, fun hfresh next => ?_⟩
  · cases hdb : s.req.db <;>
      simp [mysqlConnection, tryCatchJs, bind_apply, M.bind, poolGetConnection, hacq,
        releaseIfDb, throwJs, hdb, dbRelease]
  · simp [mysqlConnection, tryCatchJs, bind_apply, M.bind, poolGetConnection, hacq]
  · exact mysqlConnection_of_acquire_error W next s e hacq hfresh

/-- C6 at a concrete request: `GET /` with the database unreachable. -/
theorem mysqlConnection_acquire_failure_witness :
    unreachableWorld.getConnection = .error refused ∧
    (freshRequest .GET "/" none .undefined).req.db = none ∧
    ∀ next, mysqlConnection unreachableWorld next (freshRequest .GET "/" none .undefined)
      = (.error refused, logged Event.acquireFailed (freshRequest .GET "/" none .undefined)) :=
  ⟨rfl, rfl, (mysqlConnection_acquire_failure unreachableWorld
    (freshRequest .GET "/" none .undefined) refused rfl).2.2 rfl⟩

/-- C7: with connection `c` acquired, if the statement
`SET SESSION sql_mode = "TRADITIONAL"` and then the statement
`SET time_zone = '-8:00'` both succeed on `c`, the next stage is run in a state
in which `c` is the attached connection and the log of this request reads, in
order: acquired `c`, placeholder flag on `c`, the sql_mode statement on `c`, the
time_zone statement on `c`. If the sql_mode statement fails, the time_zone
statement is not issued; if either fails, the middleware releases `c` and
rethrows, and what it does is the same for every next stage: the next stage is
not run. The state `s` before the request, and so any earlier use of the
connection, is arbitrary. -/
theorem mysqlConnection_configures_before_next (W : World) (s : St) (c : Conn)
    (hacq : W.getConnection = .ok c) :
    ((∃ v1 v2, W.query c "SET SESSION sql_mode = \"TRADITIONAL\"" [] = .ok v1 ∧
        W.query c "SET time_zone = '-8:00'" [] = .ok v2) →
      (∀ next, mysqlConnection W next s =
        match next (beforeNext c s) with
        | (.ok _, s1) => dbRelease s1
        | (.error e, s1) => (releaseIfDb >>= fun _ => throwJs e) s1) ∧
      (beforeNext c s).req = { s.req with db := some c } ∧
      (beforeNext c s).req.db = some c ∧
      (beforeNext c s).trace = s.trace ++ [Event.acquired c, Event.namedPlaceholders c,
        Event.query c "SET SESSION sql_mode = \"TRADITIONAL\"" [],
        Event.query c "SET time_zone = '-8:00'" []]) ∧
    ((¬ ∃ v1 v2, W.query c "SET SESSION sql_mode = \"TRADITIONAL\"" [] = .ok v1 ∧
        W.query c "SET time_zone = '-8:00'" [] = .ok v2) →
      (∀ next, ∃ e, (mysqlConnection W next s).1 = .error e) ∧
      ∀ next next2, mysqlConnection W next s = mysqlConnection W next2 s) ∧
    (∀ e, W.query c "SET SESSION sql_mode = \"TRADITIONAL\"" [] = .error e →
      ∀ next, mysqlConnection W next s =
        (.error e,
          { req := { s.req with db := some c },
            trace := s.trace ++ [Event.acquired c, Event.namedPlaceholders c,
              Event.query c "SET SESSION sql_mode = \"TRADITIONAL\"" [], Event.release c] })) ∧
    (∀ v1 e, W.query c "SET SESSION sql_mode = \"TRADITIONAL\"" [] = .ok v1 →
      W.query c "SET time_zone = '-8:00'" [] = .error e →
      ∀ next, mysqlConnection W next s =
        (.error e,
          { req := { s.req with db := some c },
            trace := s.trace ++ [Event.acquired c, Event.namedPlaceholders c,
              Event.query c "SET SESSION sql_mode = \"TRADITIONAL\"" [],
              Event.query c "SET time_zone = '-8:00'" [], Event.release c] })) := by
  have hmode : ("SET SESSION sql_mode = \"TRADITIONAL\"" : String) = sqlMode := rfl
  have hzone : ("SET time_zone = '-8:00'" : String) = sqlTimeZone := rfl
  rw [hmode, hzone]
  refine ⟨?_, ?_, ?_, ?_⟩
  · rintro ⟨v1, v2, h1, h2⟩
    refine ⟨fun next => mysqlConnection_of_configured W next s c v1 v2 hacq h1 h2, rfl, rfl, ?_⟩
    simp [beforeNext, logged, afterAcquire]
  · intro hno
    cases h1 : W.query c sqlMode [] with
    | error e =>
      refine ⟨fun next => ⟨e, ?_⟩, fun next next2 => ?_⟩
      · rw [mysqlConnection_of_mode_error W next s c e hacq h1]
      · rw [mysqlConnection_of_mode_error W next s c e hacq h1,
          mysqlConnection_of_mode_error W next2 s c e hacq h1]
    | ok v1 =>
      cases h2 : W.query c sqlTimeZone [] with
      | error e =>
        refine ⟨fun next => ⟨e, ?_⟩, fun next next2 => ?_⟩
        · rw [mysqlConnection_of_zone_error W next s c v1 e hacq h1 h2]
        · rw [mysqlConnection_of_zone_error W next s c v1 e hacq h1 h2,
            mysqlConnection_of_zone_error W next2 s c v1 e hacq h1 h2]
      | ok v2 => exact absurd ⟨v1, v2, h1, h2⟩ hno
  · intro e h1 next
    rw [mysqlConnection_of_mode_error W next s c e hacq h1]
    simp [logged, afterAcquire]
  · intro v1 e h1 h2 next
    rw [mysqlConnection_of_zone_error W next s c v1 e hacq h1 h2]
    simp [logged, afterAcquire, beforeNext]

/-- C7 at concrete requests. `GET /` in `demoWorld`, on connection `1`, where
both statements succeed: the next stage runs after the two statements. The
same request in `strictRefusedWorld`, where the sql_mode statement fails: the
connection is released and the error rethrown, for every next stage. -/
theorem mysqlConnection_configures_before_next_witness :
    demoWorld.getConnection = .ok 1 ∧
    demoWorld.query 1 "SET SESSION sql_mode = \"TRADITIONAL\"" [] = .ok (.arr []) ∧
    demoWorld.query 1 "SET time_zone = '-8:00'" [] = .ok (.arr []) ∧
    (∀ next, mysqlConnection demoWorld next (freshRequest .GET "/" none .undefined) =
      match next (beforeNext 1 (freshRequest .GET "/" none .undefined)) with
      | (.ok _, s1) => dbRelease s1
      | (.error e, s1) => (releaseIfDb >>= fun _ => throwJs e) s1) ∧
    (beforeNext 1 (freshRequest .GET "/" none .undefined)).trace
      = [Event.acquired 1, Event.namedPlaceholders 1,
          Event.query 1 "SET SESSION sql_mode = \"TRADITIONAL\"" [],
          Event.query 1 "SET time_zone = '-8:00'" []] ∧
    strictRefusedWorld.query 1 "SET SESSION sql_mode = \"TRADITIONAL\"" [] = .error modeRefused ∧
    ∀ next, mysqlConnection strictRefusedWorld next (freshRequest .GET "/" none .undefined) =
      (.error modeRefused,
        { req := { (freshRequest .GET "/" none .undefined).req with db := some 1 },
          trace := (freshRequest .GET "/" none .undefined).trace
            ++ [Event.acquired 1, Event.namedPlaceholders 1,
              Event.query 1 "SET SESSION sql_mode = \"TRADITIONAL\"" [], Event.release 1] }) :=
  ⟨rfl, rfl, rfl,
    ((mysqlConnection_configures_before_next demoWorld
      (freshRequest .GET "/" none .undefined) 1 rfl).1 ⟨.arr [], .arr [], rfl, rfl⟩).1,
    ((mysqlConnection_configures_before_next demoWorld
      (freshRequest .GET "/" none .undefined) 1 rfl).1 ⟨.arr [], .arr [], rfl, rfl⟩).2.2.2,
    rfl,
    (mysqlConnection_configures_before_next strictRefusedWorld
      (freshRequest .GET "/" none .undefined) 1 rfl).2.2.1 modeRefused rfl⟩

/-! ## Splitting the header -/

theorem splitChars_ne_nil (sep : Char) (a : List Char) : splitChars sep a ≠ [] := by
  induction a with
  | nil => simp [splitChars]
  | cons c cs ih =>
    unfold splitChars
    split
    · simp
    · split
      · simp
      · simp

/-- Splitting at a separator: the fields of the left part, then the fields of
the right part. -/
theorem splitChars_append_sep (sep : Char) (a b : List Char) :
    splitChars sep (a ++ sep :: b) = splitChars sep a ++ splitChars sep b := by
  induction a with
  | nil => simp [splitChars]
  | cons c cs ih =>
    by_cases hc : c = sep
    · simp [splitChars, hc, ih]
    · have hne := splitChars_ne_nil sep cs
      cases hsp : splitChars sep cs with
      | nil => exact absurd hsp hne
      | cons f fs => simp [splitChars, hc, ih, hsp]

/-- A string without the separator is one field. -/
theorem splitChars_of_not_mem (sep : Char) (a : List Char) (h : sep ∉ a) :
    splitChars sep a = [a] := by
  induction a with
  | nil => rfl
  | cons c cs ih =>
    have hc : c ≠ sep := fun hc => h (by simp [hc])
    have hcs : sep ∉ cs := fun hm => h (by simp [hm])
    simp [splitChars, hc, ih hcs]

theorem splitSpace_append_space (a b : String) :
    splitSpace (a ++ " " ++ b) = splitSpace a ++ splitSpace b := by
  have hd : (a ++ " " ++ b).data = a.data ++ ' ' :: b.data := by
    simp [String.data_append]
  simp [splitSpace, hd, splitChars_append_sep]

theorem splitSpace_bearer (t : String) :
    splitSpace ("Bearer " ++ t) = "Bearer" :: splitSpace t := by
  have h := splitSpace_append_space "Bearer" t
  have hb : splitSpace "Bearer" = ["Bearer"] := by decide
  have he : "Bearer" ++ " " ++ t = "Bearer " ++ t := by
    apply String.ext
    simp [String.data_append]
  rw [he, hb] at h
  exact h

theorem splitSpace_ne_nil (t : String) : splitSpace t ≠ [] := by
  simp [splitSpace, splitChars_ne_nil]

/-- The gate reads the same two fields whatever follows a second space. -/
theorem schemeAndToken_bearer_extra (t x : String) :
    schemeAndToken ("Bearer " ++ t ++ " " ++ x) = schemeAndToken ("Bearer " ++ t) := by
  have hne := splitSpace_ne_nil t
  cases ht : splitSpace t with
  | nil => exact absurd ht hne
  | cons f fs =>
    simp [schemeAndToken, splitSpace_append_space, splitSpace_bearer, ht]

/-- The first field of a `Bearer` header is the scheme, the start of the rest
up to its first space is the credential. -/
theorem schemeAndToken_bearer (t : String) :
    schemeAndToken ("Bearer " ++ t) = (some "Bearer", (splitSpace t).head?) := by
  have hne := splitSpace_ne_nil t
  cases ht : splitSpace t with
  | nil => exact absurd ht hne
  | cons f fs => simp [schemeAndToken, splitSpace_bearer, ht]

/-- A credential without a space is read whole. -/
theorem schemeAndToken_bearer_token (t : String) (ht : ' ' ∉ t.data) :
    schemeAndToken ("Bearer " ++ t) = (some "Bearer", some t) := by
  rw [schemeAndToken_bearer]
  simp [splitSpace, splitChars_of_not_mem ' ' t.data ht]

/-- Two spaces after `Bearer`: the credential is the empty string. -/
theorem schemeAndToken_bearer_two_spaces (x : String) :
    schemeAndToken ("Bearer  " ++ x) = (some "Bearer", some "") := by
  have he : "Bearer  " ++ x = "Bearer " ++ ("" ++ " " ++ x) := by
    apply String.ext
    simp [String.data_append]
  rw [he, schemeAndToken_bearer, splitSpace_append_space]
  have hb : splitSpace "" = [""] := by decide
  simp [hb]

theorem bearer_ne_empty (t : String) : "Bearer " ++ t ≠ "" := by
  intro h
  have hd := congrArg String.data h
  simp [String.data_append] at hd

/-! ## The gate, case by case -/

theorem authGate_of_absent (W : World) (next : M Unit) (s : St)
    (hh : s.req.authorization = none) :
    authGate W next s = (.error headerRequired, s) := by
  simp [authGate, bind_apply, M.bind, getReq, hh, throwJs, headerRequired]

theorem authGate_of_empty (W : World) (next : M Unit) (s : St)
    (hh : s.req.authorization = some "") :
    authGate W next s = (.error headerRequired, s) := by
  simp [authGate, bind_apply, M.bind, getReq, hh, throwJs, headerRequired]

theorem authGate_of_bad_scheme (W : World) (next : M Unit) (s : St) (h : String)
    (hh : s.req.authorization = some h) (hne : h ≠ "")
    (hs : (schemeAndToken h).1 ≠ some "Bearer") :
    authGate W next s = (.error invalidAuthorization, s) := by
  simp [authGate, bind_apply, M.bind, getReq, hh, hne, throwJs, invalidAuthorization, hs]

theorem authGate_of_rejected (W : World) (next : M Unit) (s : St) (h : String) (err : JsErr)
    (hh : s.req.authorization = some h) (hne : h ≠ "")
    (hs : (schemeAndToken h).1 = some "Bearer")
    (hv : W.jwtVerify (schemeAndToken h).2 (W.env "JWT_KEY") = .error err) :
    authGate W next s = (.error (rejectedToken err), s) := by
  simp [authGate, bind_apply, M.bind, getReq, hh, hne, throwJs, rejectedToken, hs, tryCatchJs,
    liftExcept, hv]

theorem authGate_of_verified (W : World) (next : M Unit) (s : St) (h : String) (p : JsVal)
    (hh : s.req.authorization = some h) (hne : h ≠ "")
    (hs : (schemeAndToken h).1 = some "Bearer")
    (hv : W.jwtVerify (schemeAndToken h).2 (W.env "JWT_KEY") = .ok p) :
    authGate W next s = next (attach p s) := by
  simp [authGate, bind_apply, M.bind, getReq, hh, hne, hs, tryCatchJs, liftExcept, hv, setUser,
    attach]

/-! ## Claims about the gate -/

/-- C2: with no Authorization header the gate throws, whatever the next stage
is, and leaves the request as it found it: the stages mounted after the gate do
not run and `req.user` is not set. -/
theorem authGate_absent_header (W : World) (s : St) (hh : s.req.authorization = none) :
    (∀ next, authGate W next s = (.error headerRequired, s)) ∧
    authGate W (protectedRoutes W) s = (.error headerRequired, s) ∧
    ∀ next, (authGate W next s).2.req.user = s.req.user := by
  refine ⟨fun next => authGate_of_absent W next s hh, authGate_of_absent W _ s hh, fun next => ?_⟩
  rw [authGate_of_absent W next s hh]

/-- C2 at a concrete request: `POST /` without a header in `demoWorld`. -/
theorem authGate_absent_header_witness :
    (freshRequest .POST "/" none .undefined).req.authorization = none ∧
    ((∀ next, authGate demoWorld next (freshRequest .POST "/" none .undefined)
        = (.error headerRequired, freshRequest .POST "/" none .undefined)) ∧
    authGate demoWorld (protectedRoutes demoWorld) (freshRequest .POST "/" none .undefined)
        = (.error headerRequired, freshRequest .POST "/" none .undefined) ∧
    ∀ next, (authGate demoWorld next (freshRequest .POST "/" none .undefined)).2.req.user
        = (freshRequest .POST "/" none .undefined).req.user) :=
  ⟨rfl, authGate_absent_header demoWorld (freshRequest .POST "/" none .undefined) rfl⟩

/-- C3: with the header `h` present, the gate runs the next stage exactly when
the first field of `h` is `Bearer` and the token library accepts the second
field under the key `JWT_KEY`; it then runs it in the state with the decoded
payload attached. In every other case it throws one of its three errors,
whatever the next stage is, and leaves the request as it found it. -/
theorem authGate_present_header (W : World) (s : St) (h : String)
    (hh : s.req.authorization = some h) :
    (∀ p, ((schemeAndToken h).1 = some "Bearer" ∧
          W.jwtVerify (schemeAndToken h).2 (W.env "JWT_KEY") = .ok p) →
        ∀ next, authGate W next s = next (attach p s)) ∧
    ((¬ ∃ p, (schemeAndToken h).1 = some "Bearer" ∧
          W.jwtVerify (schemeAndToken h).2 (W.env "JWT_KEY") = .ok p) →
        ∃ e, (e = headerRequired ∨ e = invalidAuthorization ∨ ∃ err, e = rejectedToken err) ∧
          ∀ next, authGate W next s = (.error e, s)) := by
  have hempty : ∀ k : String, (schemeAndToken k).1 = some "Bearer" → k ≠ "" := by
    intro k hk hke
    subst hke
    revert hk
    decide
  constructor
  · rintro p ⟨hs, hv⟩ next
    exact authGate_of_verified W next s h p hh (hempty h hs) hs hv
  · intro hno
    by_cases hne : h = ""
    · subst hne
      exact ⟨headerRequired, Or.inl rfl, fun next => authGate_of_empty W next s hh⟩
    · by_cases hs : (schemeAndToken h).1 = some "Bearer"
      · cases hv : W.jwtVerify (schemeAndToken h).2 (W.env "JWT_KEY") with
        | ok p => exact absurd ⟨p, hs, hv⟩ hno
        | error err =>
          exact ⟨rejectedToken err, Or.inr (Or.inr ⟨err, rfl⟩),
            fun next => authGate_of_rejected W next s h err hh hne hs hv⟩
      · exact ⟨invalidAuthorization, Or.inr (Or.inl rfl),
          fun next => authGate_of_bad_scheme W next s h hh hne hs⟩

/-- C3 at two concrete requests in `demoWorld`: the header `Bearer h.p.s` is
accepted and the payload attached; the header `Basic abc` is refused. -/
theorem authGate_present_header_witness :
    (freshRequest .POST "/" (some "Bearer h.p.s") .undefined).req.authorization
      = some "Bearer h.p.s" ∧
    ((schemeAndToken "Bearer h.p.s").1 = some "Bearer" ∧
      demoWorld.jwtVerify (schemeAndToken "Bearer h.p.s").2 (demoWorld.env "JWT_KEY")
        = .ok demoPayload) ∧
    (∀ next, authGate demoWorld next (freshRequest .POST "/" (some "Bearer h.p.s") .undefined)
      = next (attach demoPayload (freshRequest .POST "/" (some "Bearer h.p.s") .undefined))) ∧
    ∃ e, (e = headerRequired ∨ e = invalidAuthorization ∨ ∃ err, e = rejectedToken err) ∧
      ∀ next, authGate demoWorld next (freshRequest .POST "/" (some "Basic abc") .undefined)
        = (.error e, freshRequest .POST "/" (some "Basic abc") .undefined) :=
  ⟨rfl, ⟨by decide, rfl⟩,
    (authGate_present_header demoWorld (freshRequest .POST "/" (some "Bearer h.p.s") .undefined)
      "Bearer h.p.s" rfl).1 demoPayload ⟨by decide, rfl⟩,
    (authGate_present_header demoWorld (freshRequest .POST "/" (some "Basic abc") .undefined)
      "Basic abc" rfl).2 (fun ⟨_, hs, _⟩ => absurd hs (by decide))⟩

/-- C4, as stated, fails: in `demoWorld` the token `h.p.s` is the one issued for
subject `7`, the gate accepts it and runs the next stage, and what it has
attached as `req.user` is the whole decoded payload, whose `sub` is `7`; it is
not the value `7`. -/
theorem authGate_identity_is_not_the_subject :
    demoWorld.jwtSign (.obj [("sub", .num 7)]) (demoWorld.env "JWT_KEY") "24h" = .ok "h.p.s" ∧
    authGate demoWorld (Pure.pure ()) (freshRequest .POST "/" (some "Bearer h.p.s") .undefined)
      = (.ok (), attach demoPayload (freshRequest .POST "/" (some "Bearer h.p.s") .undefined)) ∧
    getProp demoPayload "sub" = .ok (.num 7) ∧
    (authGate demoWorld (Pure.pure ())
      (freshRequest .POST "/" (some "Bearer h.p.s") .undefined)).2.req.user
      ≠ some (.num 7) := by
  have h := authGate_of_verified demoWorld (Pure.pure ())
    (freshRequest .POST "/" (some "Bearer h.p.s") .undefined) "Bearer h.p.s" demoPayload rfl
    (by decide) (by decide) rfl
  refine ⟨rfl, h, rfl, ?_⟩
  rw [h]
  intro hu
  simp [attach, Pure.pure, M.pure, demoPayload] at hu

/-- C4, amended: on the header `Bearer t`, with `t` free of spaces and accepted
by the token library under `JWT_KEY` with decoded payload `p`, the gate sets
`req.user` to `p` and runs the next stage in that state; there the read
`req.user.sub` gives the subject carried by the token. -/
theorem authGate_attaches_payload (W : World) (s : St) (t : String) (p uid : JsVal)
    (hh : s.req.authorization = some ("Bearer " ++ t)) (ht : ' ' ∉ t.data)
    (hv : W.jwtVerify (some t) (W.env "JWT_KEY") = .ok p) (hsub : getProp p "sub" = .ok uid) :
    (∀ next, authGate W next s = next (attach p s)) ∧
    (attach p s).req.user = some p ∧
    userProp (attach p s).req "sub" = .ok uid := by
  refine ⟨fun next => ?_, rfl, ?_⟩
  · apply authGate_of_verified W next s ("Bearer " ++ t) p hh (bearer_ne_empty t)
    · rw [schemeAndToken_bearer_token t ht]
    · rw [schemeAndToken_bearer_token t ht]
      exact hv
  · simpa [userProp, attach] using hsub

/-- C4, amended, at a concrete request: `POST /` with `Bearer h.p.s` in
`demoWorld`. -/
theorem authGate_attaches_payload_witness :
    (freshRequest .POST "/" (some "Bearer h.p.s") .undefined).req.authorization
      = some ("Bearer " ++ "h.p.s") ∧
    ' ' ∉ "h.p.s".data ∧
    demoWorld.jwtVerify (some "h.p.s") (demoWorld.env "JWT_KEY") = .ok demoPayload ∧
    getProp demoPayload "sub" = .ok (.num 7) ∧
    ((∀ next, authGate demoWorld next (freshRequest .POST "/" (some "Bearer h.p.s") .undefined)
      = next (attach demoPayload (freshRequest .POST "/" (some "Bearer h.p.s") .undefined))) ∧
    (attach demoPayload (freshRequest .POST "/" (some "Bearer h.p.s") .undefined)).req.user
      = some demoPayload ∧
    userProp (attach demoPayload (freshRequest .POST "/" (some "Bearer h.p.s") .undefined)).req
      "sub" = .ok (.num 7)) :=
  ⟨by decide, by decide, rfl, rfl,
    authGate_attaches_payload demoWorld (freshRequest .POST "/" (some "Bearer h.p.s") .undefined)
      "h.p.s" demoPayload (.num 7) (by decide) (by decide) rfl rfl⟩

/-- C10: the gate decides on the first two space-separated fields only. For
every token `t` and every text `x`, on the headers `Bearer t x` and `Bearer t`
the gate either throws the same error whatever the next stage is, or runs the
next stage with the same payload attached. On a header with two spaces after
`Bearer` the two fields are `Bearer` and the empty string, and the gate does
what the token library says of the empty credential. -/
theorem authGate_reads_two_fields (W : World) (s : St) (t x : String) :
    ((∃ e, ∀ next,
        authGate W next (withHeader ("Bearer " ++ t ++ " " ++ x) s)
          = (.error e, withHeader ("Bearer " ++ t ++ " " ++ x) s) ∧
        authGate W next (withHeader ("Bearer " ++ t) s)
          = (.error e, withHeader ("Bearer " ++ t) s)) ∨
      (∃ p, ∀ next,
        authGate W next (withHeader ("Bearer " ++ t ++ " " ++ x) s)
          = next (attach p (withHeader ("Bearer " ++ t ++ " " ++ x) s)) ∧
        authGate W next (withHeader ("Bearer " ++ t) s)
          = next (attach p (withHeader ("Bearer " ++ t) s)))) ∧
    schemeAndToken ("Bearer  " ++ x) = (some "Bearer", some "") ∧
    ∀ next, authGate W next (withHeader ("Bearer  " ++ x) s) =
      match W.jwtVerify (some "") (W.env "JWT_KEY") with
      | .ok p => next (attach p (withHeader ("Bearer  " ++ x) s))
      | .error err => (.error (rejectedToken err), withHeader ("Bearer  " ++ x) s) := by
  have hne1 : "Bearer " ++ t ++ " " ++ x ≠ "" := by
    rw [String.append_assoc, String.append_assoc]
    exact bearer_ne_empty _
  have hne2 := bearer_ne_empty t
  have hsame := schemeAndToken_bearer_extra t x
  have hform := schemeAndToken_bearer t
  have hs2 : (schemeAndToken ("Bearer " ++ t)).1 = some "Bearer" := by rw [hform]
  have hs1 : (schemeAndToken ("Bearer " ++ t ++ " " ++ x)).1 = some "Bearer" := by
    rw [hsame, hform]
  refine ⟨?_, schemeAndToken_bearer_two_spaces x, fun next => ?_⟩
  · cases hv : W.jwtVerify (schemeAndToken ("Bearer " ++ t)).2 (W.env "JWT_KEY") with
    | error err =>
      refine Or.inl ⟨rejectedToken err, fun next => ⟨?_, ?_⟩⟩
      · exact authGate_of_rejected W next _ _ err rfl hne1 hs1 (by rw [hsame]; exact hv)
      · exact authGate_of_rejected W next _ _ err rfl hne2 hs2 hv
    | ok p =>
      refine Or.inr ⟨p, fun next => ⟨?_, ?_⟩⟩
      · exact authGate_of_verified W next _ _ p rfl hne1 hs1 (by rw [hsame]; exact hv)
      · exact authGate_of_verified W next _ _ p rfl hne2 hs2 hv
  · have h2 := schemeAndToken_bearer_two_spaces x
    have hs : (schemeAndToken ("Bearer  " ++ x)).1 = some "Bearer" := by rw [h2]
    have hne : "Bearer  " ++ x ≠ "" := by
      intro h
      have hd := congrArg String.data h
      simp [String.data_append] at hd
    cases hv : W.jwtVerify (some "") (W.env "JWT_KEY") with
    | error err =>
      exact authGate_of_rejected W next _ _ err rfl hne hs (by rw [h2]; exact hv)
    | ok p =>
      exact authGate_of_verified W next _ _ p rfl hne hs (by rw [h2]; exact hv)

/-! ## The login handler -/

theorem login_of_verified (W : World) (s : St) (c : Conn) (email user stored supplied id : JsVal)
    (rest : List JsVal) (t : String) (hdb : s.req.db = some c)
    (hemail : getProp s.req.body "email" = .ok email)
    (hq : W.query c sqlSelectUser [("email", email)] = .ok (.arr (user :: rest)))
    (hstored : getProp user "password" = .ok stored)
    (hsup : getProp s.req.body "password" = .ok supplied)
    (hkdf : W.verifyKdf stored supplied = .ok true)
    (hid : getProp user "id" = .ok id)
    (hsign : W.jwtSign (.obj [("sub", id)]) (W.env "JWT_KEY") "24h" = .ok t) :
    login W s = (.ok (), logged (Event.json (.obj [("jwt", .str t)]))
      (logged (Event.query c sqlSelectUser [("email", email)]) s)) := by
  simp [login, bind_apply, M.bind, getReq, liftExcept, hemail, dbQuery, hdb, hq, firstItem,
    hstored, hsup, hkdf, hid, hsign, resJson, emit, logged]

theorem login_of_mismatch (W : World) (s : St) (c : Conn) (email user stored supplied : JsVal)
    (rest : List JsVal) (hdb : s.req.db = some c)
    (hemail : getProp s.req.body "email" = .ok email)
    (hq : W.query c sqlSelectUser [("email", email)] = .ok (.arr (user :: rest)))
    (hstored : getProp user "password" = .ok stored)
    (hsup : getProp s.req.body "password" = .ok supplied)
    (hkdf : W.verifyKdf stored supplied = .ok false) :
    login W s = (.ok (), logged (Event.json (.str "Nice try, dummy"))
      (logged (Event.query c sqlSelectUser [("email", email)]) s)) := by
  simp [login, bind_apply, M.bind, getReq, liftExcept, hemail, dbQuery, hdb, hq, firstItem,
    hstored, hsup, hkdf, resJson, emit, logged]

theorem login_of_no_user (W : World) (s : St) (c : Conn) (email : JsVal)
    (hdb : s.req.db = some c) (hemail : getProp s.req.body "email" = .ok email)
    (hq : W.query c sqlSelectUser [("email", email)] = .ok (.arr [])) :
    login W s = (.error (mkTypeError "Cannot read properties of undefined (reading 'password')"),
      logged (Event.query c sqlSelectUser [("email", email)]) s) := by
  have hp : getProp .undefined "password"
      = .error (mkTypeError "Cannot read properties of undefined (reading 'password')") := by
    simp only [getProp, mkTypeError]
    congr 2
  simp [login, bind_apply, M.bind, getReq, liftExcept, hemail, dbQuery, hdb, hq, firstItem,
    hp, logged]

/-- C8: when the lookup by email returns a row `user`, the handler verifies the
supplied password against `user.password`. If the verification gives `true`,
the handler signs the payload `{sub: user.id}` with the key `JWT_KEY` and the
expiry `24h` and answers `{jwt: t}` with the token `t` so obtained. If it gives
`false`, the handler answers the string `Nice try, dummy`. In both cases it
returns normally, having made the one query and the one response. -/
theorem login_stored_user (W : World) (s : St) (c : Conn) (email user stored supplied : JsVal)
    (rest : List JsVal) (hdb : s.req.db = some c)
    (hemail : getProp s.req.body "email" = .ok email)
    (hq : W.query c sqlSelectUser [("email", email)] = .ok (.arr (user :: rest)))
    (hstored : getProp user "password" = .ok stored)
    (hsup : getProp s.req.body "password" = .ok supplied) :
    (W.verifyKdf stored supplied = .ok true →
      ∀ id t, getProp user "id" = .ok id →
        W.jwtSign (.obj [("sub", id)]) (W.env "JWT_KEY") "24h" = .ok t →
        login W s = (.ok (), logged (Event.json (.obj [("jwt", .str t)]))
          (logged (Event.query c sqlSelectUser [("email", email)]) s))) ∧
    (W.verifyKdf stored supplied = .ok false →
      login W s = (.ok (), logged (Event.json (.str "Nice try, dummy"))
        (logged (Event.query c sqlSelectUser [("email", email)]) s))) :=
  ⟨fun hkdf id t hid hsign =>
      login_of_verified W s c email user stored supplied id rest t hdb hemail hq hstored hsup
        hkdf hid hsign,
    fun hkdf =>
      login_of_mismatch W s c email user stored supplied rest hdb hemail hq hstored hsup hkdf⟩

/-- C8 at two concrete requests in `demoWorld`: the stored email with the right
password is answered `{jwt: "h.p.s"}`, the token issued for the user id `7`; the
stored email with a wrong password is answered `Nice try, dummy`. -/
theorem login_stored_user_witness :
    demoWorld.query 1 sqlSelectUser [("email", .str "ann@example.org")] = .ok (.arr [demoUser]) ∧
    demoWorld.verifyKdf (.str "c2VjcmV0") (.str "secret") = .ok true ∧
    demoWorld.verifyKdf (.str "c2VjcmV0") (.str "wrong") = .ok false ∧
    demoWorld.jwtSign (.obj [("sub", .num 7)]) (demoWorld.env "JWT_KEY") "24h" = .ok "h.p.s" ∧
    login demoWorld (handlerRequest .POST "/auth/login" (credentials "ann@example.org" "secret"))
      = (.ok (), logged (Event.json (.obj [("jwt", .str "h.p.s")]))
          (logged (Event.query 1 sqlSelectUser [("email", .str "ann@example.org")])
            (handlerRequest .POST "/auth/login" (credentials "ann@example.org" "secret")))) ∧
    login demoWorld (handlerRequest .POST "/auth/login" (credentials "ann@example.org" "wrong"))
      = (.ok (), logged (Event.json (.str "Nice try, dummy"))
          (logged (Event.query 1 sqlSelectUser [("email", .str "ann@example.org")])
            (handlerRequest .POST "/auth/login" (credentials "ann@example.org" "wrong")))) :=
  ⟨rfl, rfl, rfl, rfl,
    (login_stored_user demoWorld
      (handlerRequest .POST "/auth/login" (credentials "ann@example.org" "secret")) 1
      (.str "ann@example.org") demoUser (.str "c2VjcmV0") (.str "secret") [] rfl rfl rfl rfl
      rfl).1 rfl (.num 7) "h.p.s" rfl rfl,
    (login_stored_user demoWorld
      (handlerRequest .POST "/auth/login" (credentials "ann@example.org" "wrong")) 1
      (.str "ann@example.org") demoUser (.str "c2VjcmV0") (.str "wrong") [] rfl rfl rfl rfl
      rfl).2 rfl⟩

/-- C9 on the code: in `demoWorld` a login with an email no user has ends in a
thrown `TypeError`, before any password check, while a login with the stored
email and a wrong password returns normally with the answer `Nice try, dummy`;
the two outcomes differ. The same holds of the whole application when the two
requests carry the bearer token the gate asks for. -/
theorem login_unknown_email_differs :
    demoWorld.query 1 sqlSelectUser [("email", .str "bob@example.org")] = .ok (.arr []) ∧
    login demoWorld (handlerRequest .POST "/auth/login" (credentials "bob@example.org" "secret"))
      = (.error (mkTypeError "Cannot read properties of undefined (reading 'password')"),
          logged (Event.query 1 sqlSelectUser [("email", .str "bob@example.org")])
            (handlerRequest .POST "/auth/login" (credentials "bob@example.org" "secret"))) ∧
    login demoWorld (handlerRequest .POST "/auth/login" (credentials "ann@example.org" "wrong"))
      = (.ok (), logged (Event.json (.str "Nice try, dummy"))
          (logged (Event.query 1 sqlSelectUser [("email", .str "ann@example.org")])
            (handlerRequest .POST "/auth/login" (credentials "ann@example.org" "wrong")))) ∧
    (login demoWorld
        (handlerRequest .POST "/auth/login" (credentials "bob@example.org" "secret"))).1
      ≠ (login demoWorld
        (handlerRequest .POST "/auth/login" (credentials "ann@example.org" "wrong"))).1 ∧
    (app demoWorld (freshRequest .POST "/auth/login" (some "Bearer h.p.s")
        (credentials "bob@example.org" "secret"))).1
      = .error (mkTypeError "Cannot read properties of undefined (reading 'password')") ∧
    (app demoWorld (freshRequest .POST "/auth/login" (some "Bearer h.p.s")
        (credentials "bob@example.org" "secret"))).2.trace
      = [Event.acquired 1, Event.namedPlaceholders 1, Event.query 1 sqlMode [],
          Event.query 1 sqlTimeZone [],
          Event.query 1 sqlSelectUser [("email", .str "bob@example.org")], Event.release 1] ∧
    (app demoWorld (freshRequest .POST "/auth/login" (some "Bearer h.p.s")
        (credentials "ann@example.org" "wrong"))).1 = .ok () ∧
    (app demoWorld (freshRequest .POST "/auth/login" (some "Bearer h.p.s")
        (credentials "ann@example.org" "wrong"))).2.trace
      = [Event.acquired 1, Event.namedPlaceholders 1, Event.query 1 sqlMode [],
          Event.query 1 sqlTimeZone [],
          Event.query 1 sqlSelectUser [("email", .str "ann@example.org")],
          Event.json (.str "Nice try, dummy"), Event.release 1] := by
  have h1 := login_of_no_user demoWorld
    (handlerRequest .POST "/auth/login" (credentials "bob@example.org" "secret")) 1
    (.str "bob@example.org") rfl rfl rfl
  have h2 := login_of_mismatch demoWorld
    (handlerRequest .POST "/auth/login" (credentials "ann@example.org" "wrong")) 1
    (.str "ann@example.org") demoUser (.str "c2VjcmV0") (.str "wrong") [] rfl rfl rfl rfl rfl rfl
  refine ⟨rfl, h1, h2, ?_, rfl, rfl, rfl, rfl⟩
  rw [h1, h2]
  intro h
  cases h

/-! ## Mount order -/

/-- C5 on the code: in `demoWorld`, without an Authorization header, `GET /`
reaches its handler, which queries and answers; `POST /auth/login` and
`POST /auth/register` are refused by the gate with its missing-header error,
and their handlers make no query and no answer. -/
theorem app_login_register_behind_gate :
    (app demoWorld (freshRequest .GET "/" none .undefined)).1 = .ok () ∧
    (app demoWorld (freshRequest .GET "/" none .undefined)).2.trace
      = [Event.acquired 1, Event.namedPlaceholders 1, Event.query 1 sqlMode [],
          Event.query 1 sqlTimeZone [], Event.query 1 sqlListCars [], Event.json (.arr []),
          Event.release 1] ∧
    (app demoWorld (freshRequest .POST "/auth/login" none
        (credentials "ann@example.org" "secret"))).1 = .error headerRequired ∧
    (app demoWorld (freshRequest .POST "/auth/login" none
        (credentials "ann@example.org" "secret"))).2.trace = refusedLog ∧
    (app demoWorld (freshRequest .POST "/auth/register" none
        (credentials "eve@example.org" "pw"))).1 = .error headerRequired ∧
    (app demoWorld (freshRequest .POST "/auth/register" none
        (credentials "eve@example.org" "pw"))).2.trace = refusedLog :=
  ⟨rfl, rfl, rfl, rfl, rfl, rfl⟩

end AppJs
